/-
Verification of the vulkanrenderer repository's core logic against its
specification.

The development shallowly embeds the renderer's pure decision logic:
  * queue-family selection            (src/renderer/device.rs, QueueFamilies::init)
  * swapchain construction            (src/renderer/swapchain.rs, Swapchain::init,
                                       Swapchain::create_framebuffer)
  * the per-frame loop                (src/main.rs, the RedrawRequested arm)
  * renderer teardown                 (src/renderer/mod.rs, Drop for VulkanRenderer,
                                       plus the component cleanup functions)

Native Vulkan handles are opaque; they are modelled as natural numbers.  The
driver/OS side of each native call is modelled by an explicit backend record
supplying the query results, and by an event trace recording each resource
creation (for init) or destruction (for teardown).  Machine-integer casts that
matter are kept explicit: the `as u32` cast of the image count is modelled as
`% 2 ^ 32`.  A Rust `unwrap` panic on a failure path is modelled as an
`Except.error` outcome.
-/
import Mathlib

namespace VkRenderer

/-! ## Queue family selection (src/renderer/device.rs) -/

/-- One element of `get_physical_device_queue_family_properties`: the queue
count and the two flag bits the code inspects (`GRAPHICS`, `TRANSFER`). -/
structure QueueFamilyProperties where
  queue_count : Nat
  graphics : Bool
  transfer : Bool
deriving DecidableEq

/-- The record produced by `QueueFamilies::init`. -/
structure QueueFamilies where
  graphics_q_index : Option Nat
  transfer_q_index : Option Nat
deriving DecidableEq

/-- One iteration of the `for (index, qfam) in ...enumerate()` loop body of
`QueueFamilies::init` (device.rs lines 23-34): the graphics index is
overwritten by every qualifying family; the transfer index is overwritten when
none is recorded yet or the family does not also support graphics. -/
def qfStep (acc : QueueFamilies) (index : Nat) (qfam : QueueFamilyProperties) :
    QueueFamilies :=
  let acc1 :=
    if 0 < qfam.queue_count ∧ qfam.graphics = true then
      { acc with graphics_q_index := some index }
    else acc
  if 0 < qfam.queue_count ∧ qfam.transfer = true ∧
      (acc1.transfer_q_index = none ∨ qfam.graphics = false) then
    { acc1 with transfer_q_index := some index }
  else acc1

/-- The whole loop, over the already-enumerated `(index, properties)` pairs. -/
def qfFold : List (Nat × QueueFamilyProperties) → QueueFamilies → QueueFamilies
  | [], acc => acc
  | p :: rest, acc => qfFold rest (qfStep acc p.1 p.2)

/-- Function `QueueFamilies::init`, as a function of the enumerated queue family
properties (the only data the loop reads). -/
def QueueFamilies.init (props : List QueueFamilyProperties) : QueueFamilies :=
  qfFold props.enum { graphics_q_index := none, transfer_q_index := none }

/-- A family qualifying for the graphics index: nonzero queue count and the
GRAPHICS flag. -/
def graphicsCapable (q : QueueFamilyProperties) : Prop :=
  0 < q.queue_count ∧ q.graphics = true

instance : DecidablePred graphicsCapable := fun q => by
  unfold graphicsCapable; infer_instance

/-- A dedicated transfer family: nonzero queue count, TRANSFER flag, and no
GRAPHICS flag. -/
def dedicatedTransfer (q : QueueFamilyProperties) : Prop :=
  0 < q.queue_count ∧ q.transfer = true ∧ q.graphics = false

instance : DecidablePred dedicatedTransfer := fun q => by
  unfold dedicatedTransfer; infer_instance

/-- The index the spec sentence describes for the graphics family: the FIRST
enumerated family with nonzero queue count supporting graphics. -/
def firstGraphicsIndex (props : List QueueFamilyProperties) : Option Nat :=
  (props.enum.find? fun p => decide (graphicsCapable p.2)).map Prod.fst

/-- The index the code actually records: the LAST enumerated family with
nonzero queue count supporting graphics. -/
def lastGraphicsIndex (props : List QueueFamilyProperties) : Option Nat :=
  (props.enum.reverse.find? fun p => decide (graphicsCapable p.2)).map Prod.fst

/-! ## Swapchain construction (src/renderer/swapchain.rs) -/

/-- The surface formats the code inspects (`vk::Format`); only
`B8G8R8A8_UNORM` is compared against, other formats are collapsed into
representative constructors. -/
inductive VkFormat
  | B8G8R8A8_UNORM
  | R8G8B8A8_UNORM
  | R32G32B32A32_SFLOAT
  | other (code : Nat)
deriving DecidableEq

structure Extent2D where
  width : Nat
  height : Nat
deriving DecidableEq

/-- Struct `vk::SurfaceFormatKHR`. -/
structure SurfaceFormatKHR where
  format : VkFormat
  color_space : Nat
deriving DecidableEq

/-- The fields of `vk::SurfaceCapabilitiesKHR` the code (or the spec's
scenarios) mention. -/
structure SurfaceCapabilitiesKHR where
  current_extent : Extent2D
  min_image_count : Nat
  max_image_count : Nat
deriving DecidableEq

/-- The `vk::SwapchainCreateInfoKHR` fields set by `Swapchain::init`
(swapchain.rs lines 36-54); booleans record the fixed flag choices. -/
structure SwapchainCreateInfoKHR where
  min_image_count : Nat
  image_format : VkFormat
  image_color_space : Nat
  image_extent : Extent2D
  image_array_layers : Nat
  usage_color_attachment : Bool
  sharing_mode_exclusive : Bool
  queue_family_indices : List Nat
  present_mode_fifo : Bool
deriving DecidableEq

/-- A fence as created by `create_fence`: an opaque handle plus the signaled
bit of its `FenceCreateFlags`. -/
structure Fence where
  handle : Nat
  signaled : Bool
deriving DecidableEq

instance : Inhabited Fence := ⟨⟨0, false⟩⟩

/-- Resource-creation events emitted by the native calls `Swapchain::init`
and `Swapchain::create_framebuffer` perform, in call order. -/
inductive VkEvent
  | createSwapchain (info : SwapchainCreateInfoKHR)
  | createImageView (image : Nat)
  | createSemaphore
  | createFence (signaled : Bool)
  | createFramebuffer
deriving DecidableEq

/-- The failure outcomes of `Swapchain::init`: both are `unwrap` panics in
the source (on the absent surface format, and on a missing graphics queue
index). -/
inductive SwapchainInitError
  | formatUnsupported
  | noGraphicsIndex
deriving DecidableEq

/-- The driver/OS side of the calls `Swapchain::init` makes through the
surface loader and the swapchain loader: the three surface queries, and the
images `get_swapchain_images` returns for a given create info. -/
structure SurfaceBackend where
  capabilities : SurfaceCapabilitiesKHR
  present_modes : List Nat
  formats : List SurfaceFormatKHR
  images_for : SwapchainCreateInfoKHR → List Nat

/-- The `Swapchain` struct (swapchain.rs lines 6-19).  `swapchain_info`
stands for the opaque `swapchain` handle, remembering the create info it was
made with; `amount_of_images` carries the `as u32` cast. -/
structure Swapchain where
  swapchain_info : SwapchainCreateInfoKHR
  images : List Nat
  image_views : List Nat
  framebuffers : List Nat
  surface_format : SurfaceFormatKHR
  extent : Extent2D
  image_available : List Nat
  may_begin_drawing : List Fence
  rendering_finished : List Nat
  amount_of_images : Nat
  current_image : Nat
deriving DecidableEq

/-- The `for _ in 0..amount_of_images` loop of `Swapchain::init`
(swapchain.rs lines 83-93): each iteration creates one "available" semaphore,
one "finished" semaphore and one SIGNALED fence, pushing each onto its list.
`next` numbers the opaque handles in creation order. -/
def mkSyncObjects : Nat → Nat → List VkEvent × List Nat × List Nat × List Fence
  | _, 0 => ([], [], [], [])
  | next, k + 1 =>
    let semaphore_available := next
    let semaphore_finished := next + 1
    let fence : Fence := { handle := next + 2, signaled := true }
    let rest := mkSyncObjects (next + 3) k
    (VkEvent.createSemaphore :: VkEvent.createSemaphore ::
        VkEvent.createFence true :: rest.1,
      semaphore_available :: rest.2.1,
      semaphore_finished :: rest.2.2.1,
      fence :: rest.2.2.2)

/-- Function `Swapchain::init` (swapchain.rs lines 22-108).  Returns the trace of
resource-creation events alongside the result; an `unwrap` panic is an
`Except.error`.  The image-view handle is the image it views. -/
def Swapchain.init (graphics_q_index : Option Nat) (surfaces : SurfaceBackend) :
    List VkEvent × Except SwapchainInitError Swapchain :=
  let surface_capabilities := surfaces.capabilities
  let extent := surface_capabilities.current_extent
  match surfaces.formats.find?
      (fun surface => decide (surface.format = VkFormat.B8G8R8A8_UNORM)) with
  | none => ([], Except.error SwapchainInitError.formatUnsupported)
  | some surface_format =>
    match graphics_q_index with
    | none => ([], Except.error SwapchainInitError.noGraphicsIndex)
    | some gq =>
      let swapchain_create_info : SwapchainCreateInfoKHR :=
        { min_image_count := 3
          image_format := surface_format.format
          image_color_space := surface_format.color_space
          image_extent := extent
          image_array_layers := 1
          usage_color_attachment := true
          sharing_mode_exclusive := true
          queue_family_indices := [gq]
          present_mode_fifo := true }
      let swapchain_images := surfaces.images_for swapchain_create_info
      let amount_of_images := swapchain_images.length % 2 ^ 32
      let swapchain_imageviews := swapchain_images
      let sync := mkSyncObjects 0 amount_of_images
      (VkEvent.createSwapchain swapchain_create_info ::
          swapchain_images.map VkEvent.createImageView ++ sync.1,
        Except.ok
          { swapchain_info := swapchain_create_info
            images := swapchain_images
            image_views := swapchain_imageviews
            framebuffers := []
            extent := extent
            surface_format := surface_format
            current_image := 0
            amount_of_images := amount_of_images
            image_available := sync.2.1
            rendering_finished := sync.2.2.1
            may_begin_drawing := sync.2.2.2 })

/-- Function `Swapchain::create_framebuffer` (swapchain.rs lines 110-128): one
framebuffer is created and pushed per image view, appending to the existing
`framebuffers` vector.  The framebuffer handle is its image view. -/
def Swapchain.create_framebuffer (s : Swapchain) (renderpass : Nat) :
    List VkEvent × Swapchain :=
  (s.image_views.map fun _ => VkEvent.createFramebuffer,
    { s with framebuffers := s.framebuffers ++ s.image_views })

/-- Iterated: `k` successive calls to `create_framebuffer`. -/
def iterateCreateFramebuffer (renderpass : Nat) : Nat → Swapchain → Swapchain
  | 0, s => s
  | k + 1, s => iterateCreateFramebuffer renderpass k
      (s.create_framebuffer renderpass).2

/-! ## The renderer aggregate and its per-frame loop
(src/renderer/mod.rs, src/main.rs) -/

/-- Struct `CommandPools` (src/renderer/command_pools.rs lines 5-8). -/
structure CommandPools where
  commandpool_graphics : Nat
  commandpool_transfer : Nat
deriving DecidableEq

/-- Struct `Pipeline` (src/renderer/pipeline.rs lines 5-9); the allocator holds no
data relevant to the claims. -/
structure Pipeline where
  pipeline : Nat
  layout : Nat
deriving DecidableEq

/-- The fields of `VulkanRenderer` (mod.rs lines 16-28) that the frame loop
and teardown read; instance/surface/debug are opaque singletons with no
state beyond their handles. -/
structure VulkanRenderer where
  swapchain : Swapchain
  renderpass : Nat
  pipeline : Pipeline
  pools : CommandPools
  commandbuffers : List Nat
deriving DecidableEq

/-- Constant `vk::PipelineStageFlags::COLOR_ATTACHMENT_OUTPUT`, the fixed wait stage
of the frame loop's submit. -/
def COLOR_ATTACHMENT_OUTPUT : Nat := 1024

/-- The `vk::SubmitInfo` built in main.rs lines 62-67. -/
structure SubmitInfo where
  wait_semaphores : List Nat
  wait_dst_stage_mask : List Nat
  command_buffers : List Nat
  signal_semaphores : List Nat
deriving DecidableEq

/-- The `vk::PresentInfoKHR` built in main.rs lines 81-84. -/
structure PresentInfoKHR where
  wait_semaphores : List Nat
  image_indices : List Nat
deriving DecidableEq

/-- Everything one `RedrawRequested` frame hands to the driver: the
semaphore given to `acquire_next_image`, the fences waited on and reset, the
submission (with its signal fence), and the present info. -/
structure FrameTrace where
  acquire_semaphore : Nat
  waited_fences : List Fence
  reset_fences : List Fence
  submits : List SubmitInfo
  submit_fence : Fence
  present : PresentInfoKHR
deriving DecidableEq

/-- One `Event::RedrawRequested` arm of the event loop (main.rs lines
23-94).  `image_index` is what `acquire_next_image` returned; list indexing
models the in-bounds accesses the code performs.  Returns the frame's driver
trace and the updated renderer (only `current_image` changes, main.rs lines
92-93). -/
def redrawFrame (renderer : VulkanRenderer) (image_index : Nat) :
    FrameTrace × VulkanRenderer :=
  let sc := renderer.swapchain
  let cur := sc.current_image
  let acquire_semaphore := sc.image_available.getD cur 0
  let frame_fence := sc.may_begin_drawing.getD cur default
  let semaphores_available := [sc.image_available.getD cur 0]
  let waiting_stages := [COLOR_ATTACHMENT_OUTPUT]
  let semaphores_finished := [sc.rendering_finished.getD cur 0]
  let commandbuffers := [renderer.commandbuffers.getD image_index 0]
  let submit_info : SubmitInfo :=
    { wait_semaphores := semaphores_available
      wait_dst_stage_mask := waiting_stages
      command_buffers := commandbuffers
      signal_semaphores := semaphores_finished }
  let present_info : PresentInfoKHR :=
    { wait_semaphores := semaphores_finished
      image_indices := [image_index] }
  ({ acquire_semaphore := acquire_semaphore
     waited_fences := [frame_fence]
     reset_fences := [frame_fence]
     submits := [submit_info]
     submit_fence := frame_fence
     present := present_info },
    { renderer with
        swapchain :=
          { sc with current_image := (cur + 1) % sc.amount_of_images } })

/-- Drive the frame loop for `n` frames; `acquire k` is the image index the
presentation engine hands back on frame `k`. -/
def driveFrames (acquire : Nat → Nat) (renderer : VulkanRenderer) :
    Nat → VulkanRenderer
  | 0 => renderer
  | n + 1 => (redrawFrame (driveFrames acquire renderer n) (acquire n)).2

/-- The driver trace of frame `n` (frames are numbered from 0). -/
def frameTraceAt (acquire : Nat → Nat) (renderer : VulkanRenderer)
    (n : Nat) : FrameTrace :=
  (redrawFrame (driveFrames acquire renderer n) (acquire n)).1

/-! ## Teardown (Drop for VulkanRenderer, mod.rs lines 205-223) -/

/-- Resource-destruction events, one constructor per kind of native destroy
call the teardown path makes. -/
inductive TeardownEvent
  | deviceWaitIdle
  | destroyCommandPool (pool : Nat)
  | destroyPipeline
  | destroyPipelineLayout
  | destroyRenderPass
  | destroyFence
  | destroySemaphore
  | destroyFramebuffer
  | destroyImageView
  | destroySwapchain
  | destroyDevice
  | destroySurface
  | destroyDebugMessenger
  | destroyInstance
deriving DecidableEq

/-- Function `CommandPools::cleanup` (command_pools.rs lines 42-47): destroys the
graphics pool, then the transfer pool. -/
def CommandPools.cleanup (pools : CommandPools) : List TeardownEvent :=
  [TeardownEvent.destroyCommandPool pools.commandpool_graphics,
    TeardownEvent.destroyCommandPool pools.commandpool_transfer]

/-- Function `Pipeline::cleanup` (pipeline.rs lines 151-156): destroys the pipeline,
then its layout. -/
def Pipeline.cleanup (_ : Pipeline) : List TeardownEvent :=
  [TeardownEvent.destroyPipeline, TeardownEvent.destroyPipelineLayout]

/-- Function `Swapchain::cleanup` (swapchain.rs lines 130-148): fences, then
"available" semaphores, then "finished" semaphores, then framebuffers, then
image views, then the swapchain itself. -/
def Swapchain.cleanup (s : Swapchain) : List TeardownEvent :=
  s.may_begin_drawing.map (fun _ => TeardownEvent.destroyFence) ++
    s.image_available.map (fun _ => TeardownEvent.destroySemaphore) ++
    s.rendering_finished.map (fun _ => TeardownEvent.destroySemaphore) ++
    s.framebuffers.map (fun _ => TeardownEvent.destroyFramebuffer) ++
    s.image_views.map (fun _ => TeardownEvent.destroyImageView) ++
    [TeardownEvent.destroySwapchain]

/-- Function `Device::cleanup` (device.rs lines 115-117): destroys the logical
device. -/
def Device.cleanup : List TeardownEvent :=
  [TeardownEvent.destroyDevice]

/-- Impl `Drop for Surface` (surface.rs lines 64-70): destroys the surface. -/
def Surface.drop : List TeardownEvent :=
  [TeardownEvent.destroySurface]

/-- Modelled from the spec: `src/renderer/debug.rs` (the `Debug` struct and
its `Drop`) is declared by mod.rs but its source is not present; per the
spec's teardown order and the validation/debug collaborator description, its
drop destroys the debug (validation messenger) object. -/
def Debug.drop : List TeardownEvent :=
  [TeardownEvent.destroyDebugMessenger]

/-- Impl `Drop for VulkanRenderer` (mod.rs lines 205-223), in statement order:
`device_wait_idle`; `pools.cleanup`; `pipeline.cleanup`;
`destroy_render_pass`; `swapchain.cleanup`; the direct
`self.device.logical_device.destroy_device(None)` (line 216);
`ManuallyDrop::drop(&mut self.surfaces)`; `self.device.cleanup()` (line
218, which destroys the device again); `ManuallyDrop::drop(&mut
self.debug)`; `destroy_instance`. -/
def VulkanRenderer.drop (r : VulkanRenderer) : List TeardownEvent :=
  TeardownEvent.deviceWaitIdle ::
    (r.pools.cleanup ++ r.pipeline.cleanup ++
      [TeardownEvent.destroyRenderPass] ++ r.swapchain.cleanup ++
      [TeardownEvent.destroyDevice] ++ Surface.drop ++ Device.cleanup ++
      Debug.drop ++ [TeardownEvent.destroyInstance])

/-! ## Concrete scenario data

A surface reporting `min_image_count = 2`, `max_image_count = 8`, supporting
the BGRA format, whose presentation engine honestly returns exactly the
requested number of images (the spec's end-to-end scenario surface). -/

def backend3 : SurfaceBackend :=
  { capabilities :=
      { current_extent := ⟨800, 600⟩, min_image_count := 2, max_image_count := 8 }
    present_modes := [0]
    formats := [{ format := VkFormat.B8G8R8A8_UNORM, color_space := 0 }]
    images_for := fun info => List.range info.min_image_count }

/-- The create info `Swapchain::init` builds over `backend3`. -/
def info3 : SwapchainCreateInfoKHR :=
  { min_image_count := 3
    image_format := VkFormat.B8G8R8A8_UNORM
    image_color_space := 0
    image_extent := ⟨800, 600⟩
    image_array_layers := 1
    usage_color_attachment := true
    sharing_mode_exclusive := true
    queue_family_indices := [0]
    present_mode_fifo := true }

/-- The swapchain `Swapchain::init` produces over `backend3`. -/
def swapchain3 : Swapchain :=
  { swapchain_info := info3
    images := [0, 1, 2]
    image_views := [0, 1, 2]
    framebuffers := []
    surface_format := { format := VkFormat.B8G8R8A8_UNORM, color_space := 0 }
    extent := ⟨800, 600⟩
    image_available := [0, 3, 6]
    may_begin_drawing := [⟨2, true⟩, ⟨5, true⟩, ⟨8, true⟩]
    rendering_finished := [1, 4, 7]
    amount_of_images := 3
    current_image := 0 }

/-- The event trace `Swapchain::init` emits over `backend3`. -/
def events3 : List VkEvent :=
  [VkEvent.createSwapchain info3,
    VkEvent.createImageView 0, VkEvent.createImageView 1, VkEvent.createImageView 2,
    VkEvent.createSemaphore, VkEvent.createSemaphore, VkEvent.createFence true,
    VkEvent.createSemaphore, VkEvent.createSemaphore, VkEvent.createFence true,
    VkEvent.createSemaphore, VkEvent.createSemaphore, VkEvent.createFence true]

lemma init_backend3 :
    Swapchain.init (some 0) backend3 = (events3, Except.ok swapchain3) := by
  rfl

/-- A surface whose supported format list has no BGRA entry. -/
def backendNoBGRA : SurfaceBackend :=
  { capabilities :=
      { current_extent := ⟨800, 600⟩, min_image_count := 2, max_image_count := 8 }
    present_modes := [0]
    formats := [{ format := VkFormat.R8G8B8A8_UNORM, color_space := 0 }]
    images_for := fun info => List.range info.min_image_count }

/-- The renderer state of main.rs after startup over `backend3`: the
swapchain with its framebuffers populated, and one pre-recorded command
buffer per framebuffer. -/
def renderer3 : VulkanRenderer :=
  { swapchain := (swapchain3.create_framebuffer 0).2
    renderpass := 0
    pipeline := ⟨0, 1⟩
    pools := ⟨2, 3⟩
    commandbuffers := [10, 11, 12] }

/-- A presentation engine handing back images in round-robin order over
three images. -/
def acquireRoundRobin3 (n : Nat) : Nat := n % 3

/-! ## Queue family selection: lemmas and claims C4, C7 -/

lemma qfStep_graphics_q_index (acc : QueueFamilies) (i : Nat)
    (q : QueueFamilyProperties) :
    (qfStep acc i q).graphics_q_index =
      if graphicsCapable q then some i else acc.graphics_q_index := by
  unfold qfStep graphicsCapable
  dsimp only
  split_ifs <;> simp_all

lemma qfStep_transfer_q_index (acc : QueueFamilies) (i : Nat)
    (q : QueueFamilyProperties) :
    (qfStep acc i q).transfer_q_index =
      if 0 < q.queue_count ∧ q.transfer = true ∧
          (acc.transfer_q_index = none ∨ q.graphics = false) then
        some i
      else acc.transfer_q_index := by
  unfold qfStep
  dsimp only
  split_ifs <;> simp_all

lemma qfFold_graphics_q_index :
    ∀ (pairs : List (Nat × QueueFamilyProperties)) (acc : QueueFamilies),
      (qfFold pairs acc).graphics_q_index =
        ((pairs.reverse.find? fun p => decide (graphicsCapable p.2)).map
            Prod.fst).or acc.graphics_q_index
  | [], acc => by simp [qfFold]
  | p :: rest, acc => by
    rw [qfFold, qfFold_graphics_q_index rest, qfStep_graphics_q_index,
      List.reverse_cons, List.find?_append]
    cases hf : rest.reverse.find? fun p => decide (graphicsCapable p.2) with
    | some q => simp [Option.or]
    | none =>
      by_cases hp : graphicsCapable p.2 <;> simp [hp, List.find?, Option.or]

/-- C4 (amended): `QueueFamilies::init` records as `graphics_q_index` the
index of the LAST enumerated family with nonzero queue count supporting
graphics (the loop overwrites the index on every qualifying family). -/
theorem graphics_index_is_last (props : List QueueFamilyProperties) :
    (QueueFamilies.init props).graphics_q_index = lastGraphicsIndex props := by
  unfold QueueFamilies.init lastGraphicsIndex
  rw [qfFold_graphics_q_index]
  cases props.enum.reverse.find? fun p => decide (graphicsCapable p.2) <;>
    simp [Option.or]

/-- C4 (counterexample): with two enumerated graphics-capable families the
code records index 1, while the first such family has index 0, refuting the
claim that the FIRST graphics family is recorded. -/
theorem graphics_index_not_first_counterexample :
    (QueueFamilies.init [⟨1, true, false⟩, ⟨1, true, false⟩]).graphics_q_index
        = some 1 ∧
      firstGraphicsIndex [⟨1, true, false⟩, ⟨1, true, false⟩] = some 0 := by
  decide

lemma qfStep_transfer_of_dedicated (acc : QueueFamilies) (i : Nat)
    (q : QueueFamilyProperties) (hd : dedicatedTransfer q) :
    (qfStep acc i q).transfer_q_index = some i := by
  rw [qfStep_transfer_q_index, if_pos ⟨hd.1, hd.2.1, Or.inr hd.2.2⟩]

lemma qfFold_transfer_preserved :
    ∀ (pairs : List (Nat × QueueFamilyProperties)) (acc : QueueFamilies)
      (j : Nat), acc.transfer_q_index = some j →
      (qfFold pairs acc).transfer_q_index = some j ∨
        ∃ p ∈ pairs, (qfFold pairs acc).transfer_q_index = some p.1 ∧
          dedicatedTransfer p.2
  | [], _, _, h => Or.inl (by simpa [qfFold] using h)
  | p :: rest, acc, j, h => by
    rw [qfFold]
    by_cases hd : dedicatedTransfer p.2
    · have hstep := qfStep_transfer_of_dedicated acc p.1 p.2 hd
      rcases qfFold_transfer_preserved rest _ p.1 hstep with h1 | ⟨q, hq, h2⟩
      · exact Or.inr ⟨p, List.mem_cons_self p rest, h1, hd⟩
      · exact Or.inr ⟨q, List.mem_cons_of_mem p hq, h2⟩
    · have hstep : (qfStep acc p.1 p.2).transfer_q_index = some j := by
        rw [qfStep_transfer_q_index, if_neg, h]
        rintro ⟨hc, ht, hor⟩
        rcases hor with h0 | hg
        · rw [h] at h0; cases h0
        · exact hd ⟨hc, ht, hg⟩
      rcases qfFold_transfer_preserved rest _ j hstep with h1 | ⟨q, hq, h2⟩
      · exact Or.inl h1
      · exact Or.inr ⟨q, List.mem_cons_of_mem p hq, h2⟩

lemma qfFold_transfer_dedicated :
    ∀ (pairs : List (Nat × QueueFamilyProperties)) (acc : QueueFamilies),
      (∃ p ∈ pairs, dedicatedTransfer p.2) →
      ∃ p ∈ pairs, (qfFold pairs acc).transfer_q_index = some p.1 ∧
        dedicatedTransfer p.2
  | [], _, h => absurd h (by simp)
  | p :: rest, acc, h => by
    rw [qfFold]
    by_cases hd : dedicatedTransfer p.2
    · have hstep := qfStep_transfer_of_dedicated acc p.1 p.2 hd
      rcases qfFold_transfer_preserved rest _ p.1 hstep with h1 | ⟨q, hq, h2⟩
      · exact ⟨p, List.mem_cons_self p rest, h1, hd⟩
      · exact ⟨q, List.mem_cons_of_mem p hq, h2⟩
    · have hrest : ∃ q ∈ rest, dedicatedTransfer q.2 := by
        rcases h with ⟨q, hq, hdq⟩
        rcases List.mem_cons.mp hq with rfl | hmem
        · exact absurd hdq hd
        · exact ⟨q, hmem, hdq⟩
      rcases qfFold_transfer_dedicated rest (qfStep acc p.1 p.2) hrest with
        ⟨q, hq, h2⟩
      exact ⟨q, List.mem_cons_of_mem p hq, h2⟩

/-- C7: whenever some enumerated family is transfer-capable without graphics
support, `QueueFamilies::init` records such a dedicated family as
`transfer_q_index` (a combined graphics-and-transfer family is only kept
when no dedicated one exists). -/
theorem transfer_index_prefers_dedicated (props : List QueueFamilyProperties)
    (h : ∃ qf ∈ props, dedicatedTransfer qf) :
    ∃ j qf, (QueueFamilies.init props).transfer_q_index = some j ∧
      props.get? j = some qf ∧ dedicatedTransfer qf := by
  obtain ⟨qf, hmem, hd⟩ := h
  obtain ⟨i, hget⟩ := List.mem_iff_get?.mp hmem
  have henum : ((i, qf) : Nat × QueueFamilyProperties) ∈ props.enum :=
    List.mem_enum_iff_get?.mpr hget
  obtain ⟨p, hp, htr, hdp⟩ :=
    qfFold_transfer_dedicated props.enum
      { graphics_q_index := none, transfer_q_index := none }
      ⟨(i, qf), henum, hd⟩
  exact ⟨p.1, p.2, htr, List.mem_enum_iff_get?.mp hp, hdp⟩

/-- Witness for C7: a combined graphics+transfer family at index 0 and a
dedicated transfer family at index 1; the dedicated one is selected. -/
theorem transfer_index_prefers_dedicated_witness :
    ∃ j qf,
      (QueueFamilies.init [⟨1, true, true⟩, ⟨1, false, true⟩]).transfer_q_index
          = some j ∧
        [QueueFamilyProperties.mk 1 true true,
          QueueFamilyProperties.mk 1 false true].get? j = some qf ∧
        dedicatedTransfer qf :=
  transfer_index_prefers_dedicated
    [⟨1, true, true⟩, ⟨1, false, true⟩] (by decide)

/-! ## Swapchain construction: lemmas and claims C5, C8, C9, C3, C10 -/

lemma mkSyncObjects_avail_length :
    ∀ (next k : Nat), (mkSyncObjects next k).2.1.length = k
  | _, 0 => rfl
  | next, k + 1 => by
    simp [mkSyncObjects, mkSyncObjects_avail_length (next + 3) k]

lemma mkSyncObjects_finished_length :
    ∀ (next k : Nat), (mkSyncObjects next k).2.2.1.length = k
  | _, 0 => rfl
  | next, k + 1 => by
    simp [mkSyncObjects, mkSyncObjects_finished_length (next + 3) k]

lemma mkSyncObjects_fences_length :
    ∀ (next k : Nat), (mkSyncObjects next k).2.2.2.length = k
  | _, 0 => rfl
  | next, k + 1 => by
    simp [mkSyncObjects, mkSyncObjects_fences_length (next + 3) k]

lemma mkSyncObjects_fences_signaled :
    ∀ (next k : Nat) (f : Fence), f ∈ (mkSyncObjects next k).2.2.2 →
      f.signaled = true
  | _, 0, _, h => absurd h (by simp [mkSyncObjects])
  | next, k + 1, f, h => by
    rw [mkSyncObjects] at h
    rcases List.mem_cons.mp h with rfl | h2
    · rfl
    · exact mkSyncObjects_fences_signaled (next + 3) k f h2

/-- Inversion of a successful `Swapchain::init`: the structural facts about
the returned swapchain and event trace that the claims use. -/
lemma Swapchain.init_ok {q : Option Nat} {b : SurfaceBackend}
    {evs : List VkEvent} {s : Swapchain}
    (h : Swapchain.init q b = (evs, Except.ok s)) :
    s.amount_of_images = s.images.length % 2 ^ 32 ∧
    s.image_views = s.images ∧
    s.framebuffers = [] ∧
    s.image_available.length = s.amount_of_images ∧
    s.rendering_finished.length = s.amount_of_images ∧
    s.may_begin_drawing.length = s.amount_of_images ∧
    (∀ f ∈ s.may_begin_drawing, f.signaled = true) ∧
    s.current_image = 0 ∧
    s.swapchain_info.min_image_count = 3 ∧
    evs.head? = some (VkEvent.createSwapchain s.swapchain_info) := by
  unfold Swapchain.init at h
  split at h
  · simp at h
  · split at h
    · simp at h
    · rw [Prod.mk.injEq] at h
      obtain ⟨hevs, hs⟩ := h
      rw [Except.ok.injEq] at hs
      subst hs
      subst hevs
      refine ⟨rfl, rfl, rfl, ?_, ?_, ?_, ?_, rfl, rfl, rfl⟩
      · exact mkSyncObjects_avail_length 0 _
      · exact mkSyncObjects_finished_length 0 _
      · exact mkSyncObjects_fences_length 0 _
      · exact fun f hf => mkSyncObjects_fences_signaled 0 _ f hf

/-- C5: when the surface's supported format list has no entry with format
`B8G8R8A8_UNORM`, `Swapchain::init` fails on its format-unsupported path
(the `unwrap` panic on the failed `find`) with an empty resource-creation
trace: no swapchain, image view, semaphore or fence is created. -/
theorem init_fails_without_bgra_format (q : Option Nat) (b : SurfaceBackend)
    (h : ∀ f ∈ b.formats, f.format ≠ VkFormat.B8G8R8A8_UNORM) :
    Swapchain.init q b =
      ([], Except.error SwapchainInitError.formatUnsupported) := by
  have hf : b.formats.find?
      (fun surface => decide (surface.format = VkFormat.B8G8R8A8_UNORM)) =
        none := by
    rw [List.find?_eq_none]
    intro x hx
    simp [h x hx]
  unfold Swapchain.init
  rw [hf]

/-- Witness for C5: a surface supporting only `R8G8B8A8_UNORM`. -/
theorem init_fails_without_bgra_format_witness :
    Swapchain.init (some 0) backendNoBGRA =
      ([], Except.error SwapchainInitError.formatUnsupported) :=
  init_fails_without_bgra_format (some 0) backendNoBGRA (by decide)

/-- C8: every successful `Swapchain::init` passes a create info whose
`min_image_count` is exactly 3, for any surface capabilities (no clamping
against the reported min/max image count), and the trace's first event is
that creation; on the scenario surface reporting `min_image_count = 2`,
`max_image_count = 8` with an honest presentation engine, the swapchain
comes out with exactly 3 images. -/
theorem init_requests_exactly_three_images {q : Option Nat}
    {b : SurfaceBackend} {evs : List VkEvent} {s : Swapchain}
    (h : Swapchain.init q b = (evs, Except.ok s)) :
    s.swapchain_info.min_image_count = 3 ∧
    evs.head? = some (VkEvent.createSwapchain s.swapchain_info) ∧
    Swapchain.init (some 0) backend3 = (events3, Except.ok swapchain3) ∧
    backend3.capabilities.min_image_count = 2 ∧
    backend3.capabilities.max_image_count = 8 ∧
    swapchain3.amount_of_images = 3 ∧
    swapchain3.images.length = 3 := by
  obtain ⟨-, -, -, -, -, -, -, -, hmin, hhead⟩ := Swapchain.init_ok h
  exact ⟨hmin, hhead, init_backend3, rfl, rfl, rfl, rfl⟩

/-- Witness for C8: instantiated at the scenario surface. -/
theorem init_requests_exactly_three_images_witness :
    swapchain3.swapchain_info.min_image_count = 3 ∧
    events3.head? = some (VkEvent.createSwapchain swapchain3.swapchain_info) ∧
    Swapchain.init (some 0) backend3 = (events3, Except.ok swapchain3) ∧
    backend3.capabilities.min_image_count = 2 ∧
    backend3.capabilities.max_image_count = 8 ∧
    swapchain3.amount_of_images = 3 ∧
    swapchain3.images.length = 3 :=
  init_requests_exactly_three_images init_backend3

/-- C9: a successful `Swapchain::init` creates one "image available"
semaphore, one "rendering finished" semaphore and one fence per swapchain
image, and every fence in `may_begin_drawing` is created SIGNALED. -/
theorem init_sync_objects_per_image {q : Option Nat} {b : SurfaceBackend}
    {evs : List VkEvent} {s : Swapchain}
    (h : Swapchain.init q b = (evs, Except.ok s))
    (hlen : s.images.length < 2 ^ 32) :
    s.image_available.length = s.images.length ∧
    s.rendering_finished.length = s.images.length ∧
    s.may_begin_drawing.length = s.images.length ∧
    ∀ f ∈ s.may_begin_drawing, f.signaled = true := by
  obtain ⟨hamt, -, -, hav, hrf, hmb, hsig, -, -, -⟩ := Swapchain.init_ok h
  rw [Nat.mod_eq_of_lt hlen] at hamt
  exact ⟨hav.trans hamt, hrf.trans hamt, hmb.trans hamt, hsig⟩

/-- Witness for C9: instantiated at the scenario surface. -/
theorem init_sync_objects_per_image_witness :
    swapchain3.image_available.length = swapchain3.images.length ∧
    swapchain3.rendering_finished.length = swapchain3.images.length ∧
    swapchain3.may_begin_drawing.length = swapchain3.images.length ∧
    ∀ f ∈ swapchain3.may_begin_drawing, f.signaled = true :=
  init_sync_objects_per_image init_backend3 (by decide)

/-- C3: after a successful `Swapchain::init` followed by one
`create_framebuffer` call, `amount_of_images` equals the lengths of all five
per-image arrays: image views, framebuffers, "available" semaphores,
"finished" semaphores, and fences. -/
theorem swapchain_parallel_arrays_aligned {q : Option Nat}
    {b : SurfaceBackend} {evs : List VkEvent} {s : Swapchain}
    (h : Swapchain.init q b = (evs, Except.ok s))
    (hlen : s.images.length < 2 ^ 32) (renderpass : Nat) :
    (s.create_framebuffer renderpass).2.amount_of_images =
        (s.create_framebuffer renderpass).2.image_views.length ∧
    (s.create_framebuffer renderpass).2.amount_of_images =
        (s.create_framebuffer renderpass).2.framebuffers.length ∧
    (s.create_framebuffer renderpass).2.amount_of_images =
        (s.create_framebuffer renderpass).2.image_available.length ∧
    (s.create_framebuffer renderpass).2.amount_of_images =
        (s.create_framebuffer renderpass).2.rendering_finished.length ∧
    (s.create_framebuffer renderpass).2.amount_of_images =
        (s.create_framebuffer renderpass).2.may_begin_drawing.length := by
  obtain ⟨hamt, hiv, hfb, hav, hrf, hmb, -, -, -, -⟩ := Swapchain.init_ok h
  rw [Nat.mod_eq_of_lt hlen] at hamt
  simp only [Swapchain.create_framebuffer]
  refine ⟨?_, ?_, hav.symm, hrf.symm, hmb.symm⟩
  · rw [hamt, hiv]
  · rw [hfb, hamt, hiv]
    simp

/-- Witness for C3: instantiated at the scenario surface. -/
theorem swapchain_parallel_arrays_aligned_witness :
    (swapchain3.create_framebuffer 0).2.amount_of_images =
        (swapchain3.create_framebuffer 0).2.image_views.length ∧
    (swapchain3.create_framebuffer 0).2.amount_of_images =
        (swapchain3.create_framebuffer 0).2.framebuffers.length ∧
    (swapchain3.create_framebuffer 0).2.amount_of_images =
        (swapchain3.create_framebuffer 0).2.image_available.length ∧
    (swapchain3.create_framebuffer 0).2.amount_of_images =
        (swapchain3.create_framebuffer 0).2.rendering_finished.length ∧
    (swapchain3.create_framebuffer 0).2.amount_of_images =
        (swapchain3.create_framebuffer 0).2.may_begin_drawing.length :=
  swapchain_parallel_arrays_aligned init_backend3 (by decide) 0

lemma create_framebuffer_framebuffers (s : Swapchain) (renderpass : Nat) :
    (s.create_framebuffer renderpass).2.framebuffers =
      s.framebuffers ++ s.image_views := rfl

lemma iterateCreateFramebuffer_length (renderpass : Nat) :
    ∀ (k : Nat) (s : Swapchain),
      (iterateCreateFramebuffer renderpass k s).framebuffers.length =
        s.framebuffers.length + k * s.image_views.length
  | 0, s => by simp [iterateCreateFramebuffer]
  | k + 1, s => by
    rw [iterateCreateFramebuffer,
      iterateCreateFramebuffer_length renderpass k]
    simp only [Swapchain.create_framebuffer, List.length_append]
    ring

/-- C10: `create_framebuffer` appends one framebuffer per image view to the
existing vector without clearing it, so after `k` successful calls on a
freshly initialized swapchain the framebuffer count is `k` times
`amount_of_images`; the one-framebuffer-per-image invariant holds exactly
when `k = 1` (for a nonempty swapchain). -/
theorem create_framebuffer_accumulates {q : Option Nat} {b : SurfaceBackend}
    {evs : List VkEvent} {s : Swapchain}
    (h : Swapchain.init q b = (evs, Except.ok s))
    (hlen : s.images.length < 2 ^ 32) (renderpass : Nat) (k : Nat) :
    (s.create_framebuffer renderpass).2.framebuffers =
        s.framebuffers ++ s.image_views ∧
    (iterateCreateFramebuffer renderpass k s).framebuffers.length =
        k * s.amount_of_images ∧
    (0 < s.amount_of_images →
      ((iterateCreateFramebuffer renderpass k s).framebuffers.length =
          s.amount_of_images ↔ k = 1)) := by
  obtain ⟨hamt, hiv, hfb, -, -, -, -, -, -, -⟩ := Swapchain.init_ok h
  rw [Nat.mod_eq_of_lt hlen] at hamt
  have hlength :
      (iterateCreateFramebuffer renderpass k s).framebuffers.length =
        k * s.amount_of_images := by
    rw [iterateCreateFramebuffer_length, hfb, hiv, hamt]
    simp
  refine ⟨create_framebuffer_framebuffers s renderpass, hlength, fun hpos => ?_⟩
  rw [hlength]
  constructor
  · intro hk
    have := Nat.eq_of_mul_eq_mul_right hpos (hk.trans (Nat.one_mul _).symm)
    exact this
  · rintro rfl
    exact Nat.one_mul _

/-- Witness for C10: instantiated at the scenario surface with two calls. -/
theorem create_framebuffer_accumulates_witness :
    (swapchain3.create_framebuffer 0).2.framebuffers =
        swapchain3.framebuffers ++ swapchain3.image_views ∧
    (iterateCreateFramebuffer 0 2 swapchain3).framebuffers.length =
        2 * swapchain3.amount_of_images ∧
    (0 < swapchain3.amount_of_images →
      ((iterateCreateFramebuffer 0 2 swapchain3).framebuffers.length =
          swapchain3.amount_of_images ↔ 2 = 1)) :=
  create_framebuffer_accumulates init_backend3 (by decide) 0 2

/-! ## Frame loop: lemmas and claims C2, C6 -/

lemma redrawFrame_snd (r : VulkanRenderer) (image_index : Nat) :
    (redrawFrame r image_index).2 =
      { r with
          swapchain :=
            { r.swapchain with
                current_image :=
                  (r.swapchain.current_image + 1) %
                    r.swapchain.amount_of_images } } := rfl

lemma driveFrames_preserved (acquire : Nat → Nat) (r : VulkanRenderer) :
    ∀ n : Nat,
      (driveFrames acquire r n).swapchain.amount_of_images =
          r.swapchain.amount_of_images ∧
      (driveFrames acquire r n).swapchain.image_available =
          r.swapchain.image_available ∧
      (driveFrames acquire r n).swapchain.rendering_finished =
          r.swapchain.rendering_finished ∧
      (driveFrames acquire r n).swapchain.may_begin_drawing =
          r.swapchain.may_begin_drawing ∧
      (driveFrames acquire r n).commandbuffers = r.commandbuffers
  | 0 => ⟨rfl, rfl, rfl, rfl, rfl⟩
  | n + 1 => by
    have ih := driveFrames_preserved acquire r n
    rw [driveFrames, redrawFrame_snd]
    exact ⟨ih.1, ih.2.1, ih.2.2.1, ih.2.2.2.1, ih.2.2.2.2⟩

lemma driveFrames_current_image (acquire : Nat → Nat) (r : VulkanRenderer)
    (h0 : r.swapchain.current_image = 0) :
    ∀ n : Nat, (driveFrames acquire r n).swapchain.current_image =
      n % r.swapchain.amount_of_images
  | 0 => by simpa [driveFrames] using h0
  | n + 1 => by
    rw [driveFrames, redrawFrame_snd]
    show ((driveFrames acquire r n).swapchain.current_image + 1) %
        (driveFrames acquire r n).swapchain.amount_of_images = _
    rw [driveFrames_current_image acquire r h0 n,
      (driveFrames_preserved acquire r n).1, Nat.mod_add_mod]

/-- C2: starting from the freshly initialized cursor 0, after `N` presented
frames `current_image` equals `N mod amount_of_images`, for every sequence
of acquired image indices; driving the startup renderer over the 3-image
scenario swapchain for 10 frames yields the cursor values
0,1,2,0,1,2,0,1,2,0. -/
theorem current_image_equals_frames_mod (r : VulkanRenderer)
    (h0 : r.swapchain.current_image = 0) (acquire : Nat → Nat) (N : Nat) :
    (driveFrames acquire r N).swapchain.current_image =
        N % r.swapchain.amount_of_images ∧
    (List.range 10).map
        (fun n =>
          (driveFrames acquireRoundRobin3 renderer3 n).swapchain.current_image)
      = [0, 1, 2, 0, 1, 2, 0, 1, 2, 0] :=
  ⟨driveFrames_current_image acquire r h0 N, by decide⟩

/-- Witness for C2: the startup renderer after 10 frames. -/
theorem current_image_equals_frames_mod_witness :
    (driveFrames acquireRoundRobin3 renderer3 10).swapchain.current_image =
        10 % renderer3.swapchain.amount_of_images ∧
    (List.range 10).map
        (fun n =>
          (driveFrames acquireRoundRobin3 renderer3 n).swapchain.current_image)
      = [0, 1, 2, 0, 1, 2, 0, 1, 2, 0] :=
  current_image_equals_frames_mod renderer3 (by decide) acquireRoundRobin3 10

/-- C6: on frame `n`, the submitted command buffer is the one at the
ACQUIRED image index, while the acquire semaphore, wait semaphore, signal
semaphore, waited/reset/signal fence are all the ones at the rotation index
`n mod amount_of_images`; the rotation cursor then advances to
`(n+1) mod amount_of_images` regardless of the acquired index. -/
theorem frame_uses_acquired_cb_and_rotating_sync (r : VulkanRenderer)
    (h0 : r.swapchain.current_image = 0) (acquire : Nat → Nat) (n : Nat) :
    frameTraceAt acquire r n =
      { acquire_semaphore :=
          r.swapchain.image_available.getD
            (n % r.swapchain.amount_of_images) 0
        waited_fences :=
          [r.swapchain.may_begin_drawing.getD
            (n % r.swapchain.amount_of_images) default]
        reset_fences :=
          [r.swapchain.may_begin_drawing.getD
            (n % r.swapchain.amount_of_images) default]
        submits :=
          [{ wait_semaphores :=
               [r.swapchain.image_available.getD
                 (n % r.swapchain.amount_of_images) 0]
             wait_dst_stage_mask := [COLOR_ATTACHMENT_OUTPUT]
             command_buffers := [r.commandbuffers.getD (acquire n) 0]
             signal_semaphores :=
               [r.swapchain.rendering_finished.getD
                 (n % r.swapchain.amount_of_images) 0] }]
        submit_fence :=
          r.swapchain.may_begin_drawing.getD
            (n % r.swapchain.amount_of_images) default
        present :=
          { wait_semaphores :=
              [r.swapchain.rendering_finished.getD
                (n % r.swapchain.amount_of_images) 0]
            image_indices := [acquire n] } } ∧
    (driveFrames acquire r (n + 1)).swapchain.current_image =
      (n + 1) % r.swapchain.amount_of_images := by
  have hp := driveFrames_preserved acquire r n
  have hc := driveFrames_current_image acquire r h0 n
  refine ⟨?_, driveFrames_current_image acquire r h0 (n + 1)⟩
  unfold frameTraceAt redrawFrame
  simp only [hp.1, hp.2.1, hp.2.2.1, hp.2.2.2.1, hp.2.2.2.2, hc]

/-- Witness for C6: frame 4 of the startup renderer; the rotation index is
4 mod 3 = 1 while the acquired index is acquireRoundRobin3 4. -/
theorem frame_uses_acquired_cb_and_rotating_sync_witness :
    frameTraceAt acquireRoundRobin3 renderer3 4 =
      { acquire_semaphore :=
          renderer3.swapchain.image_available.getD
            (4 % renderer3.swapchain.amount_of_images) 0
        waited_fences :=
          [renderer3.swapchain.may_begin_drawing.getD
            (4 % renderer3.swapchain.amount_of_images) default]
        reset_fences :=
          [renderer3.swapchain.may_begin_drawing.getD
            (4 % renderer3.swapchain.amount_of_images) default]
        submits :=
          [{ wait_semaphores :=
               [renderer3.swapchain.image_available.getD
                 (4 % renderer3.swapchain.amount_of_images) 0]
             wait_dst_stage_mask := [COLOR_ATTACHMENT_OUTPUT]
             command_buffers :=
               [renderer3.commandbuffers.getD (acquireRoundRobin3 4) 0]
             signal_semaphores :=
               [renderer3.swapchain.rendering_finished.getD
                 (4 % renderer3.swapchain.amount_of_images) 0] }]
        submit_fence :=
          renderer3.swapchain.may_begin_drawing.getD
            (4 % renderer3.swapchain.amount_of_images) default
        present :=
          { wait_semaphores :=
              [renderer3.swapchain.rendering_finished.getD
                (4 % renderer3.swapchain.amount_of_images) 0]
            image_indices := [acquireRoundRobin3 4] } } ∧
    (driveFrames acquireRoundRobin3 renderer3 (4 + 1)).swapchain.current_image =
      (4 + 1) % renderer3.swapchain.amount_of_images :=
  frame_uses_acquired_cb_and_rotating_sync renderer3 (by decide)
    acquireRoundRobin3 4

/-! ## Teardown: claim C1 -/

/-- C1 (bug evidence): `Drop for VulkanRenderer` destroys the logical
device TWICE on every teardown — once by the direct `destroy_device` call
(mod.rs line 216) and once more through `self.device.cleanup()` (mod.rs
line 218), the second after the surface is destroyed — contradicting the
destroy-each-resource-exactly-once teardown order. -/
theorem drop_destroys_device_twice (r : VulkanRenderer) :
    (VulkanRenderer.drop r).count TeardownEvent.destroyDevice = 2 := by
  unfold VulkanRenderer.drop CommandPools.cleanup Pipeline.cleanup
    Swapchain.cleanup Device.cleanup Surface.drop Debug.drop
  simp [List.count_append, List.count_cons, List.count_replicate]

end VkRenderer
